import Mathlib

/-!
Shallow embedding of the batched sequence-translation driver of the
bhasaSetu-app repository (`src/IndicTransToolkit/example.py`): sentence
splitting (`split_sentences`), the batch loop (`batch_translate`), the
paragraph convenience wrapper (`translate_paragraph`), and the attention /
quantization handling of `initialize_model_and_tokenizer`.

External collaborators (the NLTK `sent_tokenize`, the Moses sentence
splitter, the IndicNLP `sentence_split`, and the IndicProcessor /
tokenizer / model pipeline) are modelled as function parameters, so that
theorems can quantify over their behaviour exactly as the spec's stub-model
hypotheses do.  Fallible Python code is modelled with `Except`.
-/

namespace BhasaSetu

/-- The soft hyphen character U+00AD (Python `"\xad"`). -/
def softHyphen : Char := Char.ofNat 0xAD

/-- Embedding of `sent.replace("\xad", "")`: replacing every occurrence of
the one-character substring U+00AD by the empty string is exactly filtering
that character out of the string. -/
def stripSoftHyphens (s : String) : String :=
  ⟨s.data.filter (· != softHyphen)⟩

/-- The FLORES language code mapping `flores_codes` of the source, as an
association list in source order. -/
def flores_codes : List (String × String) :=
  [("asm_Beng", "as"), ("awa_Deva", "hi"), ("ben_Beng", "bn"), ("bho_Deva", "hi"),
   ("brx_Deva", "hi"), ("doi_Deva", "hi"), ("eng_Latn", "en"), ("gom_Deva", "kK"),
   ("guj_Gujr", "gu"), ("hin_Deva", "hi"), ("hne_Deva", "hi"), ("kan_Knda", "kn"),
   ("kas_Arab", "ur"), ("kas_Deva", "hi"), ("kha_Latn", "en"), ("lus_Latn", "en"),
   ("mag_Deva", "hi"), ("mai_Deva", "hi"), ("mal_Mlym", "ml"), ("mar_Deva", "mr"),
   ("mni_Beng", "bn"), ("mni_Mtei", "hi"), ("npi_Deva", "ne"), ("ory_Orya", "or"),
   ("pan_Guru", "pa"), ("san_Deva", "hi"), ("sat_Olck", "or"), ("snd_Arab", "ur"),
   ("snd_Deva", "hi"), ("tam_Taml", "ta"), ("tel_Telu", "te"), ("urd_Arab", "ur")]

/-- Exceptions the embedded code can raise, over a type `ε` of opaque causes
raised by the external model's generation step.

`keyError` is Python's built-in `KeyError` (raised by `flores_codes[lang]`
when `lang` is not a key); `valueError` is Python's `ValueError` (raised by
`range(0, n, 0)`); `genError` is an exception raised inside `model.generate`
and propagated unchanged by the driver (the source has no handler).

The last two constructors are NOT raised anywhere by the embedded source
code.  They are modelled from the spec (section 7 error taxonomy) solely so
that the spec's claims about them can be stated and compared against what
the code actually raises: `unsupportedLanguage` models the spec's
`UnsupportedLanguageError`, and `modelInvocationError` models the spec's
`ModelInvocationError` carrying a batch index and an underlying cause. -/
inductive PyErr (ε : Type) : Type where
  | keyError (key : String) : PyErr ε
  | valueError : PyErr ε
  | genError (cause : ε) : PyErr ε
  | unsupportedLanguage (tag : String) : PyErr ε
  | modelInvocationError (batchIndex : Nat) (cause : ε) : PyErr ε
  deriving DecidableEq

/-- Whether an exception is the spec's `UnsupportedLanguageError`. -/
def PyErr.isUnsupportedLanguage : PyErr ε → Bool
  | .unsupportedLanguage _ => true
  | _ => false

/-- Whether an exception is the spec's `ModelInvocationError`. -/
def PyErr.isModelInvocation : PyErr ε → Bool
  | .modelInvocationError _ _ => true
  | _ => false

/-- Module constant `BATCH_SIZE = 4` of the source.  The batch-translation
driver below takes the batch size as an explicit parameter, modelling this
module-level constant, because the spec treats it as a configuration knob
and the claims quantify over its value. -/
def BATCH_SIZE : Int := 4

/-- The literal `num_beams=5` passed to `model.generate` in the source. -/
def NUM_BEAMS : Nat := 5

/-- The literal `max_length=256` passed to `model.generate` in the source. -/
def MAX_LENGTH : Nat := 256

/-- Embedding of `split_sentences(input_text, lang)`.

The three segmentation collaborators are parameters: `sent_tokenize` is the
NLTK tokenizer, `mosesSplit langCode text` is
`MosesSentenceSplitter(flores_codes[lang])([input_text])`, and
`sentence_split langCode text` is the IndicNLP
`sentence_split(input_text, lang=flores_codes[lang], delim_pat=DELIM_PAT_NO_DANDA)`
(the fixed delimiter pattern is absorbed into the collaborator).

In the source, the `eng_Latn` branch first assigns
`input_sentences = sent_tokenize(input_text)`; that value is dead (it is
overwritten on both arms of the comparison), so it is not modelled.  Both
branches subscript `flores_codes[lang]`, which raises `KeyError` when
`lang` is not a key of the mapping. -/
def split_sentences {ε : Type}
    (sent_tokenize : String → List String)
    (mosesSplit : String → String → List String)
    (sentence_split : String → String → List String)
    (input_text lang : String) : Except (PyErr ε) (List String) :=
  if lang = "eng_Latn" then
    match List.lookup lang flores_codes with
    | none => .error (.keyError lang)
    | some code =>
      .ok ((if (sent_tokenize input_text).length < (mosesSplit code input_text).length
            then sent_tokenize input_text
            else mosesSplit code input_text).map stripSoftHyphens)
  else
    match List.lookup lang flores_codes with
    | none => .error (.keyError lang)
    | some code => .ok (sentence_split code input_text)

/-- The external collaborators consumed by `batch_translate`, over a type
`Tok` of token sequences and a type `ε` of generation-failure causes:
`preprocess_batch src_lang tgt_lang batch` is `ip.preprocess_batch`;
`tokenize` is the HF tokenizer call (padding and truncation are internal to
it); `generate numBeams maxLength toks` is `model.generate`, the only step
the source allows to fail; `batch_decode` is `tokenizer.batch_decode`; and
`postprocess_batch tgt_lang outs` is `ip.postprocess_batch`. -/
structure Collaborators (Tok ε : Type) where
  preprocess_batch : String → String → List String → List String
  tokenize : List String → List Tok
  generate : Nat → Nat → List Tok → Except ε (List Tok)
  batch_decode : List Tok → List String
  postprocess_batch : String → List String → List String

/-- The body of one iteration of the `batch_translate` loop on an extracted
batch: preprocess, tokenize, generate (with the source's literal
`num_beams=5` and `max_length=256`), decode, postprocess. -/
def run_batch {Tok ε : Type} (C : Collaborators Tok ε)
    (src_lang tgt_lang : String) (batch : List String) :
    Except ε (List String) :=
  match C.generate NUM_BEAMS MAX_LENGTH
      (C.tokenize (C.preprocess_batch src_lang tgt_lang batch)) with
  | .error e => .error e
  | .ok generated_tokens =>
      .ok (C.postprocess_batch tgt_lang (C.batch_decode generated_tokens))

/-- The index list of Python `range(0, stop, b)` for a positive step `b`:
`[0, b, 2*b, ...]`, of length `⌈stop / b⌉`. -/
def pyRangeList (stop b : Nat) : List Nat :=
  (List.range ((stop + b - 1) / b)).map (fun k => k * b)

/-- Python `range(0, stop, step)` over an `Int` step: step `0` raises
`ValueError`; a negative step (with start `0 ≤ stop`) yields no indices;
a positive step yields `[0, step, 2*step, ...]`. -/
def pyRange {ε : Type} (stop : Nat) (step : Int) : Except (PyErr ε) (List Nat) :=
  if step = 0 then .error .valueError
  else if step < 0 then .ok []
  else .ok (pyRangeList stop step.toNat)

/-- The `for i in range(0, len(input_sentences), BATCH_SIZE)` loop of
`batch_translate`: for each index `i` it slices
`input_sentences[i : i + BATCH_SIZE]`, runs the batch body, and either
appends the batch's translations to the accumulator or lets a generation
exception propagate (aborting the loop).  The `Nat` component counts loop
iterations reached, i.e. invocations of the preprocess / tokenize /
generate steps (a failing `generate` call is still an invocation). -/
def transLoop {Tok ε : Type} (C : Collaborators Tok ε)
    (src_lang tgt_lang : String) (bsz : Int) (S : List String) :
    List Nat → List String → Nat → Except (PyErr ε) (List String) × Nat
  | [], translations, calls => (.ok translations, calls)
  | i :: rest, translations, calls =>
    match run_batch C src_lang tgt_lang ((S.drop i).take bsz.toNat) with
    | .error e => (.error (.genError e), calls + 1)
    | .ok out =>
        transLoop C src_lang tgt_lang bsz S rest (translations ++ out) (calls + 1)

/-- Embedding of `batch_translate(input_sentences, src_lang, tgt_lang,
model, tokenizer, ip)`, instrumented with the count of model-generation
invocations.  `bsz` models the module constant `BATCH_SIZE`. -/
def batch_translate_run {Tok ε : Type} (C : Collaborators Tok ε)
    (src_lang tgt_lang : String) (bsz : Int) (input_sentences : List String) :
    Except (PyErr ε) (List String) × Nat :=
  match pyRange input_sentences.length bsz with
  | .error e => (.error e, 0)
  | .ok idxs => transLoop C src_lang tgt_lang bsz input_sentences idxs [] 0

/-- The value `batch_translate` returns (or the exception it raises). -/
def batch_translate {Tok ε : Type} (C : Collaborators Tok ε)
    (src_lang tgt_lang : String) (bsz : Int) (input_sentences : List String) :
    Except (PyErr ε) (List String) :=
  (batch_translate_run C src_lang tgt_lang bsz input_sentences).1

/-- The number of model-generation invocations a `batch_translate` call
performs (equal to the number of preprocessing and tokenization
invocations, since each loop iteration performs one of each before
generating). -/
def genCalls {Tok ε : Type} (C : Collaborators Tok ε)
    (src_lang tgt_lang : String) (bsz : Int) (input_sentences : List String) :
    Nat :=
  (batch_translate_run C src_lang tgt_lang bsz input_sentences).2

/-- Embedding of `translate_paragraph`: split, batch-translate, join with
single spaces.  The count is the number of model-generation invocations;
an exception in `split_sentences` propagates before the translation loop
starts, so the count is `0` there. -/
def translate_paragraph {Tok ε : Type}
    (sent_tokenize : String → List String)
    (mosesSplit : String → String → List String)
    (sentence_split : String → String → List String)
    (C : Collaborators Tok ε) (bsz : Int)
    (input_text src_lang tgt_lang : String) :
    Except (PyErr ε) String × Nat :=
  match split_sentences sent_tokenize mosesSplit sentence_split input_text src_lang with
  | .error e => (.error e, 0)
  | .ok input_sentences =>
    match batch_translate_run C src_lang tgt_lang bsz input_sentences with
    | (.error e, n) => (.error e, n)
    | (.ok ts, n) => (.ok (String.intercalate " " ts), n)

/-- The contiguous batches `batch_translate` extracts, exactly as the loop
slices them: `input_sentences[i : i + bsz]` for `i` in
`range(0, len(input_sentences), bsz)`. -/
def pyChunks {α : Type} (b : Nat) (S : List α) : List (List α) :=
  (pyRangeList S.length b).map (fun i => (S.drop i).take b)

/-- Recursive reformulation of the batching: first `b` elements, then the
batches of the rest.  (For `b ≥ 1` this equals `pyChunks b`; the `b = 0`
case is irrelevant there because `range` with step `0` raises.) -/
def chunkRec {α : Type} (b : Nat) : List α → List (List α)
  | [] => []
  | x :: xs => ((x :: xs).take b) :: chunkRec b (xs.drop (b - 1))
termination_by l => l.length
decreasing_by
  simp only [List.length_drop, List.length_cons]
  omega

/-- The quantization configurations `BitsAndBytesConfig` the source can
construct (`4-bit` with double quant, `8-bit` with double quant). -/
inductive BnbConfig : Type where
  | fourBit : BnbConfig
  | eightBit : BnbConfig
  deriving DecidableEq

/-- The `qconfig` computed by `initialize_model_and_tokenizer` from the
`quantization` argument (`None` for anything other than the two recognized
values). -/
def make_qconfig (quantization : String) : Option BnbConfig :=
  if quantization = "4-bit" then some .fourBit
  else if quantization = "8-bit" then some .eightBit
  else none

/-- The value of the local variable `attn_implementation` after the
fallback block of `initialize_model_and_tokenizer`: a request for
`flash_attention_2` is kept only when both flash-attention capability
checks succeed, and otherwise falls back to `eager`; any other request is
left unchanged. -/
def resolve_attn_implementation (attn_implementation : String)
    (flash2Available flashGE210 : Bool) : String :=
  if attn_implementation = "flash_attention_2" then
    if flash2Available && flashGE210 then "flash_attention_2" else "eager"
  else attn_implementation

/-- The observable outcome of `initialize_model_and_tokenizer`:
`resolved_attn_implementation` is the local variable computed by the
fallback block, `attn_implementation` is the argument actually passed to
`AutoModelForSeq2SeqLM.from_pretrained`, and `movedToDeviceAndHalved`
records the `model.to(DEVICE); model.half()` step taken when no
quantization config was built. -/
structure LoadedModel : Type where
  resolved_attn_implementation : String
  attn_implementation : String
  quantization_config : Option BnbConfig
  movedToDeviceAndHalved : Bool
  deriving DecidableEq

/-- Embedding of `initialize_model_and_tokenizer(ckpt_dir, quantization,
attn_implementation)` restricted to its observable decisions.  The
capability checks `is_flash_attn_2_available()` and
`is_flash_attn_greater_or_equal_2_10()` are Boolean parameters.  Note the
source passes the string literal `"eager"` as the `attn_implementation`
keyword of `from_pretrained`, not the resolved local variable. -/
def initialize_model_and_tokenizer (quantization attn_implementation : String)
    (flash2Available flashGE210 : Bool) : LoadedModel :=
  let qconfig := make_qconfig quantization
  let resolved := resolve_attn_implementation attn_implementation flash2Available flashGE210
  { resolved_attn_implementation := resolved
    attn_implementation := "eager"
    quantization_config := qconfig
    movedToDeviceAndHalved := qconfig.isNone }

/-- Processing a list of already-extracted batches: the loop of
`batch_translate` after the index arithmetic has been resolved into the
batch slices themselves. -/
def procChunks {Tok ε : Type} (C : Collaborators Tok ε) (src_lang tgt_lang : String) :
    List (List String) → List String → Nat → Except (PyErr ε) (List String) × Nat
  | [], acc, cnt => (.ok acc, cnt)
  | c :: cs, acc, cnt =>
    match run_batch C src_lang tgt_lang c with
    | .error e => (.error (.genError e), cnt + 1)
    | .ok out => procChunks C src_lang tgt_lang cs (acc ++ out) (cnt + 1)

/-- Hypothesis of the spec's stub-model tests: every collaborator maps each
input element to exactly one output element, in order, independently of
batch composition, and `f` is the resulting per-sentence translation
function (postprocess after decode after generate after tokenize after
preprocess). -/
def Pointwise {Tok ε : Type} (C : Collaborators Tok ε)
    (src_lang tgt_lang : String) (f : String → String) : Prop :=
  ∃ (p : String → String) (t : String → Tok) (g : Tok → Tok)
    (d : Tok → String) (q : String → String),
    (∀ xs, C.preprocess_batch src_lang tgt_lang xs = xs.map p) ∧
    (∀ xs, C.tokenize xs = xs.map t) ∧
    (∀ xs, C.generate NUM_BEAMS MAX_LENGTH xs = .ok (xs.map g)) ∧
    (∀ xs, C.batch_decode xs = xs.map d) ∧
    (∀ xs, C.postprocess_batch tgt_lang xs = xs.map q) ∧
    (∀ s, f s = q (d (g (t (p s)))))

/-- The identity stub model of the spec's testable properties: every stage
echoes its input. -/
def idC : Collaborators String Unit where
  preprocess_batch := fun _ _ xs => xs
  tokenize := fun xs => xs
  generate := fun _ _ xs => .ok xs
  batch_decode := fun xs => xs
  postprocess_batch := fun _ xs => xs

/-- A stub model whose generation step raises exactly on the batch `["b"]`
and echoes every other batch. -/
def failOnB : Collaborators String Unit where
  preprocess_batch := fun _ _ xs => xs
  tokenize := fun xs => xs
  generate := fun _ _ xs => if xs = ["b"] then .error () else .ok xs
  batch_decode := fun xs => xs
  postprocess_batch := fun _ xs => xs

/-- A concrete string that contains soft hyphens. -/
def softHyphenated : String := ⟨[softHyphen, 'a', softHyphen]⟩

lemma pyRangeList_zero (b : Nat) : pyRangeList 0 b = [] := by
  unfold pyRangeList
  have h : (0 + b - 1) / b = 0 := by
    cases b with
    | zero => rfl
    | succ b' => exact Nat.div_eq_of_lt (by omega)
  rw [h]
  rfl

lemma pyRangeList_pos (b : Nat) (hb : 1 ≤ b) (n : Nat) (hn : 1 ≤ n) :
    pyRangeList n b = 0 :: (pyRangeList (n - b) b).map (fun i => i + b) := by
  unfold pyRangeList
  have h1 : (n + b - 1) / b = (n - 1) / b + 1 := by
    have e : n + b - 1 = (n - 1) + b := by omega
    rw [e, Nat.add_div_right _ (by omega)]
  have h2 : (n - b + b - 1) / b = (n - 1) / b := by
    rcases le_or_lt b n with h | h
    · have e : n - b + b - 1 = n - 1 := by omega
      rw [e]
    · have e : n - b = 0 := by omega
      rw [e, Nat.div_eq_of_lt (by omega), Nat.div_eq_of_lt (by omega)]
  rw [h1, h2, List.range_succ_eq_map]
  simp only [List.map_cons, List.map_map, Nat.zero_mul]
  congr 1
  apply List.map_congr_left
  intro a _
  simp only [Function.comp_apply, Nat.succ_eq_add_one]
  ring

lemma pyChunks_nil {α : Type} (b : Nat) : pyChunks b ([] : List α) = [] := by
  simp [pyChunks, pyRangeList_zero]

lemma pyChunks_cons {α : Type} (b : Nat) (hb : 1 ≤ b) (S : List α) (hS : S ≠ []) :
    pyChunks b S = S.take b :: pyChunks b (S.drop b) := by
  unfold pyChunks
  have hn : 1 ≤ S.length := by
    cases S with
    | nil => exact absurd rfl hS
    | cons x xs => simp
  rw [pyRangeList_pos b hb S.length hn]
  simp only [List.map_cons, List.map_map, List.drop_zero, List.length_drop]
  congr 1
  apply List.map_congr_left
  intro i _
  simp only [Function.comp_apply, List.drop_drop]
  rw [Nat.add_comm b i]

lemma pyChunks_length (b : Nat) (S : List String) :
    (pyChunks b S).length = (S.length + b - 1) / b := by
  simp [pyChunks, pyRangeList]

lemma pyChunks_flatten {α : Type} (b : Nat) (hb : 1 ≤ b) (S : List α) :
    (pyChunks b S).flatten = S := by
  generalize hn : S.length = n
  induction n using Nat.strongRecOn generalizing S with
  | ind n ih =>
    cases S with
    | nil => simp [pyChunks_nil]
    | cons x xs =>
      subst hn
      rw [pyChunks_cons b hb _ (by simp), List.flatten_cons]
      rw [ih ((x :: xs).drop b).length
        (by simp only [List.length_drop, List.length_cons]; omega) _ rfl]
      exact List.take_append_drop b (x :: xs)

lemma pyChunks_le {α : Type} (b : Nat) (S : List α) (c : List α)
    (hc : c ∈ pyChunks b S) : c.length ≤ b := by
  unfold pyChunks at hc
  simp only [List.mem_map] at hc
  obtain ⟨i, _, rfl⟩ := hc
  simp [List.length_take]

lemma pyChunks_eq_nil_iff {α : Type} (b : Nat) (hb : 1 ≤ b) (S : List α) :
    pyChunks b S = [] ↔ S = [] := by
  constructor
  · intro h
    cases S with
    | nil => rfl
    | cons x xs => rw [pyChunks_cons b hb _ (by simp)] at h; exact absurd h (by simp)
  · intro h
    rw [h]
    exact pyChunks_nil b

lemma pyChunks_dropLast {α : Type} (b : Nat) (hb : 1 ≤ b) (S : List α) :
    ∀ c ∈ (pyChunks b S).dropLast, c.length = b := by
  generalize hn : S.length = n
  induction n using Nat.strongRecOn generalizing S with
  | ind n ih =>
    cases S with
    | nil => simp [pyChunks_nil]
    | cons x xs =>
      subst hn
      rw [pyChunks_cons b hb _ (by simp)]
      by_cases hrest : pyChunks b ((x :: xs).drop b) = []
      · rw [hrest]
        simp
      · rw [List.dropLast_cons_of_ne_nil hrest]
        intro c hc
        rcases List.mem_cons.mp hc with rfl | hc
        · have hdrop : (x :: xs).drop b ≠ [] :=
            fun hd => hrest (by rw [hd]; exact pyChunks_nil b)
          have hblt : b < xs.length + 1 := by
            by_contra hcon
            apply hdrop
            rw [List.drop_eq_nil_iff, List.length_cons]
            omega
          rw [List.length_take, List.length_cons]
          omega
        · exact ih ((x :: xs).drop b).length
            (by simp only [List.length_drop, List.length_cons]; omega) _ rfl c hc

lemma transLoop_eq_procChunks {Tok ε : Type} (C : Collaborators Tok ε)
    (src_lang tgt_lang : String) (bsz : Int) (S : List String) (idxs : List Nat)
    (acc : List String) (cnt : Nat) :
    transLoop C src_lang tgt_lang bsz S idxs acc cnt
      = procChunks C src_lang tgt_lang
          (idxs.map (fun i => (S.drop i).take bsz.toNat)) acc cnt := by
  induction idxs generalizing acc cnt with
  | nil => rfl
  | cons i rest ih =>
    simp only [List.map_cons, transLoop, procChunks]
    cases run_batch C src_lang tgt_lang ((S.drop i).take bsz.toNat) with
    | error e => rfl
    | ok out => exact ih _ _

lemma batch_translate_run_pos {Tok ε : Type} (C : Collaborators Tok ε)
    (src_lang tgt_lang : String) (bsz : Int) (S : List String) (hb : 1 ≤ bsz) :
    batch_translate_run C src_lang tgt_lang bsz S
      = procChunks C src_lang tgt_lang (pyChunks bsz.toNat S) [] 0 := by
  unfold batch_translate_run pyRange
  rw [if_neg (by omega), if_neg (by omega)]
  exact transLoop_eq_procChunks C src_lang tgt_lang bsz S _ [] 0

lemma run_batch_pointwise {Tok ε : Type} (C : Collaborators Tok ε)
    (src_lang tgt_lang : String) (f : String → String)
    (hC : Pointwise C src_lang tgt_lang f) (batch : List String) :
    run_batch C src_lang tgt_lang batch = .ok (batch.map f) := by
  obtain ⟨p, t, g, d, q, hp, ht, hg, hd, hq, hf⟩ := hC
  have h1 : run_batch C src_lang tgt_lang batch
      = .ok (C.postprocess_batch tgt_lang
          (C.batch_decode (((batch.map p).map t).map g))) := by
    unfold run_batch
    rw [hp, ht, hg]
  rw [h1, hd, hq]
  simp only [List.map_map]
  congr 1
  apply List.map_congr_left
  intro s _
  simp only [Function.comp_apply]
  exact (hf s).symm

lemma run_batch_ok_of_gen {Tok ε : Type} (C : Collaborators Tok ε)
    (src_lang tgt_lang : String)
    (hgen : ∀ t, ∃ y, C.generate NUM_BEAMS MAX_LENGTH t = .ok y)
    (batch : List String) :
    ∃ out, run_batch C src_lang tgt_lang batch = .ok out := by
  unfold run_batch
  obtain ⟨y, hy⟩ := hgen (C.tokenize (C.preprocess_batch src_lang tgt_lang batch))
  rw [hy]
  exact ⟨_, rfl⟩

lemma procChunks_map {Tok ε : Type} (C : Collaborators Tok ε)
    (src_lang tgt_lang : String) (f : String → String)
    (hC : ∀ c : List String, run_batch C src_lang tgt_lang c = .ok (c.map f)) :
    ∀ (cs : List (List String)) (acc : List String) (cnt : Nat),
      procChunks C src_lang tgt_lang cs acc cnt
        = (.ok (acc ++ cs.flatten.map f), cnt + cs.length) := by
  intro cs
  induction cs with
  | nil => intro acc cnt; simp [procChunks]
  | cons c cs ih =>
    intro acc cnt
    simp only [procChunks, hC c]
    rw [ih (acc ++ c.map f) (cnt + 1)]
    apply Prod.ext
    · simp [List.flatten_cons, List.append_assoc]
    · simp only [List.length_cons]
      omega

lemma procChunks_count {Tok ε : Type} (C : Collaborators Tok ε)
    (src_lang tgt_lang : String)
    (hok : ∀ c : List String, ∃ out, run_batch C src_lang tgt_lang c = .ok out) :
    ∀ (cs : List (List String)) (acc : List String) (cnt : Nat),
      (procChunks C src_lang tgt_lang cs acc cnt).2 = cnt + cs.length := by
  intro cs
  induction cs with
  | nil => intro acc cnt; simp [procChunks]
  | cons c cs ih =>
    intro acc cnt
    obtain ⟨out, hout⟩ := hok c
    simp only [procChunks, hout]
    rw [ih]
    simp only [List.length_cons]
    omega

lemma procChunks_fail {Tok ε : Type} (C : Collaborators Tok ε)
    (src_lang tgt_lang : String) (cj : List String)
    (rest : List (List String)) (cause : ε)
    (hj : run_batch C src_lang tgt_lang cj = .error cause) :
    ∀ (pre : List (List String)),
      (∀ c ∈ pre, ∃ out, run_batch C src_lang tgt_lang c = .ok out) →
      ∀ (acc : List String) (cnt : Nat),
        procChunks C src_lang tgt_lang (pre ++ cj :: rest) acc cnt
          = (.error (.genError cause), cnt + pre.length + 1) := by
  intro pre
  induction pre with
  | nil =>
    intro _ acc cnt
    simp only [List.nil_append, procChunks, hj, List.length_nil]
  | cons c pre ih =>
    intro hpre acc cnt
    obtain ⟨out, hout⟩ := hpre c (by simp)
    rw [List.cons_append]
    simp only [procChunks, hout]
    rw [ih (fun c hc => hpre c (by simp [hc]))]
    apply Prod.ext
    · rfl
    · simp only [List.length_cons]
      omega

/-- The translation of a whole sentence list under a pointwise collaborator
pipeline: `batch_translate` returns the per-sentence map of the composite
translation function, for any positive batch size. -/
lemma batch_translate_pointwise {Tok ε : Type} (C : Collaborators Tok ε)
    (src_lang tgt_lang : String) (f : String → String) (bsz : Int)
    (S : List String) (hb : 1 ≤ bsz) (hC : Pointwise C src_lang tgt_lang f) :
    batch_translate C src_lang tgt_lang bsz S = .ok (S.map f) := by
  unfold batch_translate
  rw [batch_translate_run_pos C src_lang tgt_lang bsz S hb,
    procChunks_map C src_lang tgt_lang f
      (run_batch_pointwise C src_lang tgt_lang f hC) _ [] 0]
  rw [pyChunks_flatten bsz.toNat (by omega) S]
  rfl

lemma pointwise_idC (src_lang tgt_lang : String) : Pointwise idC src_lang tgt_lang id :=
  ⟨id, id, id, id, id,
    fun xs => (List.map_id xs).symm,
    fun xs => (List.map_id xs).symm,
    fun xs => congrArg Except.ok (List.map_id xs).symm,
    fun xs => (List.map_id xs).symm,
    fun xs => (List.map_id xs).symm,
    fun _ => rfl⟩

/-- Claim C1 as stated is false: with the NLTK general splitter producing 5
segments and the Moses clause-aware splitter producing 3, `split_sentences`
on the default language returns the 3-segment Moses result, not the
5-segment one — the source keeps `sents_nltk` only when it has strictly
FEWER segments than `sents_moses`, i.e. it picks the minimum. -/
theorem claim_C1_counterexample :
    split_sentences (ε := Unit) (fun _ => ["n1", "n2", "n3", "n4", "n5"])
        (fun _ _ => ["m1", "m2", "m3"]) (fun _ t => [t]) "text" "eng_Latn"
      = .ok ["m1", "m2", "m3"] ∧
    (["m1", "m2", "m3"] : List String).length = 3 ∧
    ((3 : Nat) = 5 → False) :=
  ⟨rfl, rfl, by decide⟩

/-- Claim C1 (amended): for every input text in the default language
(`eng_Latn`), `split_sentences` applies both segmentation heuristics and
returns the segmentation with the SMALLER number of segments (the NLTK
result when it has strictly fewer segments, otherwise the Moses result);
in particular, on a 3-versus-5 input, the returned sequence has 3
segments. -/
theorem claim_C1 {ε : Type} (sent_tokenize : String → List String)
    (mosesSplit sentence_split : String → String → List String)
    (input_text : String) :
    ∃ out,
      split_sentences (ε := ε) sent_tokenize mosesSplit sentence_split input_text
          "eng_Latn" = .ok out ∧
      out.length
        = min (sent_tokenize input_text).length (mosesSplit "en" input_text).length := by
  unfold split_sentences
  rw [if_pos rfl]
  have hlk : List.lookup "eng_Latn" flores_codes = some "en" := rfl
  rw [hlk]
  refine ⟨_, rfl, ?_⟩
  rw [List.length_map]
  split_ifs with h
  · omega
  · omega

/-- Claim C2 as stated is false: on an unregistered language tag the code
fails with Python's built-in `KeyError` from the `flores_codes[lang]`
lookup, not with a dedicated `UnsupportedLanguageError` (no such class
exists in the source). -/
theorem claim_C2_counterexample :
    translate_paragraph (fun t => [t]) (fun _ t => [t]) (fun _ t => [t]) idC BATCH_SIZE
        "hello world" "qqq_Fake" "hin_Deva" = (.error (.keyError "qqq_Fake"), 0) ∧
    (PyErr.keyError (ε := Unit) "qqq_Fake").isUnsupportedLanguage = false :=
  ⟨rfl, rfl⟩

/-- Claim C2 (amended): for every language tag that is not `eng_Latn` and
not a key of the language-code mapping, translating a paragraph fails with
a `KeyError` raised by the `flores_codes[lang]` subscript inside sentence
splitting, and the failure occurs before any model generation call is
attempted (zero model invocations occur). -/
theorem claim_C2 {Tok ε : Type} (sent_tokenize : String → List String)
    (mosesSplit sentence_split : String → String → List String)
    (C : Collaborators Tok ε) (bsz : Int) (input_text lang tgt_lang : String)
    (hneq : lang ≠ "eng_Latn")
    (hnokey : List.lookup lang flores_codes = none) :
    translate_paragraph sent_tokenize mosesSplit sentence_split C bsz
        input_text lang tgt_lang = (.error (.keyError lang), 0) := by
  unfold translate_paragraph split_sentences
  rw [if_neg hneq, hnokey]

/-- Witness for the amended claim C2 at the concrete unregistered tag
`xxx_Test`. -/
theorem claim_C2_witness :
    ("xxx_Test" : String) ≠ "eng_Latn" ∧
    List.lookup "xxx_Test" flores_codes = none ∧
    translate_paragraph (fun t => [t]) (fun _ t => [t]) (fun _ t => [t]) idC BATCH_SIZE
        "hello world" "xxx_Test" "hin_Deva" = (.error (.keyError "xxx_Test"), 0) :=
  ⟨by decide, rfl,
    claim_C2 (fun t => [t]) (fun _ t => [t]) (fun _ t => [t]) idC BATCH_SIZE
      "hello world" "xxx_Test" "hin_Deva" (by decide) rfl⟩

/-- Claim C3: for every non-empty sentence sequence and batch size at least
1, when every collaborator returns exactly one output per input in order
(composite per-sentence translation `f`), `batch_translate` returns a
sequence of the same length whose i-th element is `f` of the i-th input. -/
theorem claim_C3 {Tok ε : Type} (C : Collaborators Tok ε) (src_lang tgt_lang : String)
    (f : String → String) (bsz : Int) (S : List String)
    (hS : S ≠ []) (hb : 1 ≤ bsz) (hC : Pointwise C src_lang tgt_lang f) :
    ∃ out, batch_translate C src_lang tgt_lang bsz S = .ok out ∧
      out.length = S.length ∧
      ∀ i : Nat, out[i]? = (S[i]?).map f := by
  refine ⟨S.map f, batch_translate_pointwise C src_lang tgt_lang f bsz S hb hC,
    List.length_map S f, ?_⟩
  intro i
  exact List.getElem?_map f S i

/-- Witness for claim C3 on a concrete three-sentence input with the
identity stub model and batch size 2. -/
theorem claim_C3_witness :
    (["hello", "world", "foo"] : List String) ≠ [] ∧ (1 : Int) ≤ 2 ∧
    ∃ out, batch_translate idC "eng_Latn" "hin_Deva" 2 ["hello", "world", "foo"]
        = .ok out ∧
      out.length = (["hello", "world", "foo"] : List String).length ∧
      ∀ i : Nat, out[i]? = ((["hello", "world", "foo"] : List String)[i]?).map id :=
  ⟨by decide, by decide,
    claim_C3 idC "eng_Latn" "hin_Deva" id 2 ["hello", "world", "foo"]
      (by decide) (by decide) (pointwise_idC "eng_Latn" "hin_Deva")⟩

/-- Claim C4: batching is transparent — with deterministic per-sentence
collaborators (independent of batch composition), `batch_translate`
returns the same result for any two batch sizes at least 1. -/
theorem claim_C4 {Tok ε : Type} (C : Collaborators Tok ε) (src_lang tgt_lang : String)
    (f : String → String) (b1 b2 : Int) (S : List String)
    (hb1 : 1 ≤ b1) (hb2 : 1 ≤ b2) (hC : Pointwise C src_lang tgt_lang f) :
    batch_translate C src_lang tgt_lang b1 S
      = batch_translate C src_lang tgt_lang b2 S := by
  rw [batch_translate_pointwise C src_lang tgt_lang f b1 S hb1 hC,
    batch_translate_pointwise C src_lang tgt_lang f b2 S hb2 hC]

/-- Witness for claim C4 with batch sizes 1 and 100 on the same input. -/
theorem claim_C4_witness :
    (1 : Int) ≤ 1 ∧ (1 : Int) ≤ 100 ∧
    batch_translate idC "eng_Latn" "hin_Deva" 1 ["p", "q", "r"]
      = batch_translate idC "eng_Latn" "hin_Deva" 100 ["p", "q", "r"] :=
  ⟨by decide, by decide,
    claim_C4 idC "eng_Latn" "hin_Deva" id 1 100 ["p", "q", "r"]
      (by decide) (by decide) (pointwise_idC "eng_Latn" "hin_Deva")⟩

/-- Claim C5: `batch_translate` partitions its input into contiguous
chunks of at most `bsz` sentences in original order (their concatenation
is the input, and only the final chunk may be smaller), and — when the
generation step never raises — performs exactly `⌈len S / bsz⌉` model
generation invocations, one per chunk. -/
theorem claim_C5 {Tok ε : Type} (C : Collaborators Tok ε) (src_lang tgt_lang : String)
    (bsz : Int) (S : List String) (hb : 1 ≤ bsz)
    (hgen : ∀ t, ∃ y, C.generate NUM_BEAMS MAX_LENGTH t = .ok y) :
    genCalls C src_lang tgt_lang bsz S = (S.length + bsz.toNat - 1) / bsz.toNat ∧
    genCalls C src_lang tgt_lang bsz S = (pyChunks bsz.toNat S).length ∧
    (pyChunks bsz.toNat S).flatten = S ∧
    (∀ c ∈ pyChunks bsz.toNat S, c.length ≤ bsz.toNat) ∧
    (∀ c ∈ (pyChunks bsz.toNat S).dropLast, c.length = bsz.toNat) := by
  have hok := run_batch_ok_of_gen C src_lang tgt_lang hgen
  have hcnt : genCalls C src_lang tgt_lang bsz S = (pyChunks bsz.toNat S).length := by
    unfold genCalls
    rw [batch_translate_run_pos C src_lang tgt_lang bsz S hb,
      procChunks_count C src_lang tgt_lang hok _ [] 0]
    omega
  refine ⟨?_, hcnt, pyChunks_flatten bsz.toNat (by omega) S,
    fun c hc => pyChunks_le bsz.toNat S c hc,
    pyChunks_dropLast bsz.toNat (by omega) S⟩
  rw [hcnt, pyChunks_length]

/-- Witness for claim C5: the claim's particular instance — a 2-sentence
input with batch size 1 invokes the model exactly twice. -/
theorem claim_C5_witness :
    (1 : Int) ≤ 1 ∧
    genCalls idC "eng_Latn" "hin_Deva" 1 ["Hello.", "How are you?"] = 2 := by
  refine ⟨by decide, ?_⟩
  have h := (claim_C5 idC "eng_Latn" "hin_Deva" 1 ["Hello.", "How are you?"]
    (by decide) (fun t => ⟨t, rfl⟩)).1
  rw [h]
  decide

/-- Claim C6 as stated is false: when generation raises, the underlying
exception propagates as-is; it is not wrapped in a `ModelInvocationError`
carrying the failing batch index (no such class exists in the source). -/
theorem claim_C6_counterexample :
    batch_translate failOnB "eng_Latn" "hin_Deva" 1 ["a", "b"]
      = .error (.genError ()) ∧
    (PyErr.genError (ε := Unit) ()).isModelInvocation = false :=
  ⟨rfl, rfl⟩

/-- Claim C6 (amended): if the model generation step raises on some batch
(all earlier batches succeeding), `batch_translate` fails with the
underlying exception propagated unchanged (not wrapped with the batch
index), the whole call aborts after that batch (earlier batches plus the
failing one account for all generation invocations), and no partial result
sequence is returned to the caller — the call's outcome is the error
alone. -/
theorem claim_C6 {Tok ε : Type} (C : Collaborators Tok ε) (src_lang tgt_lang : String)
    (bsz : Int) (S : List String) (pre rest : List (List String))
    (cj : List String) (cause : ε) (hb : 1 ≤ bsz)
    (hsplit : pyChunks bsz.toNat S = pre ++ cj :: rest)
    (hpre : ∀ c ∈ pre, ∃ out, run_batch C src_lang tgt_lang c = .ok out)
    (hj : run_batch C src_lang tgt_lang cj = .error cause) :
    batch_translate_run C src_lang tgt_lang bsz S
      = (.error (.genError cause), pre.length + 1) := by
  rw [batch_translate_run_pos C src_lang tgt_lang bsz S hb, hsplit,
    procChunks_fail C src_lang tgt_lang cj rest cause hj pre hpre [] 0]
  simp

/-- Witness for the amended claim C6: batch size 1 on `["a", "b"]` with a
stub that raises on the second batch aborts with the raw cause after two
generation invocations. -/
theorem claim_C6_witness :
    pyChunks (1 : Int).toNat ["a", "b"] = [["a"]] ++ ["b"] :: [] ∧
    batch_translate_run failOnB "eng_Latn" "hin_Deva" 1 ["a", "b"]
      = (.error (.genError ()), 2) := by
  refine ⟨rfl, ?_⟩
  exact claim_C6 failOnB "eng_Latn" "hin_Deva" 1 ["a", "b"] [["a"]] [] ["b"] ()
    (by decide) rfl
    (by intro c hc
        rw [List.mem_singleton] at hc
        subst hc
        exact ⟨["a"], rfl⟩)
    rfl

/-- Claim C7 as stated is false: with the non-positive batch size `-1` and
a non-empty input, `batch_translate` does not fail at all — it silently
returns the empty sequence (performing zero model invocations); no
`ConfigurationError` exists in the source. -/
theorem claim_C7_counterexample :
    batch_translate_run idC "eng_Latn" "hin_Deva" (-1) ["hello"] = (.ok [], 0) ∧
    (-1 : Int) ≤ 0 :=
  ⟨rfl, by decide⟩

/-- Claim C7 (amended): the code performs no configuration validation and
raises no `ConfigurationError`; beam width and max length are the fixed
literals 5 and 256 and cannot be non-positive.  For a non-positive batch
size, zero model invocations occur, and the call either raises `ValueError`
from `range(0, n, 0)` (batch size 0) or silently returns the empty
sequence (negative batch size). -/
theorem claim_C7 {Tok ε : Type} (C : Collaborators Tok ε) (src_lang tgt_lang : String)
    (bsz : Int) (S : List String) (hb : bsz ≤ 0) :
    genCalls C src_lang tgt_lang bsz S = 0 ∧
    (bsz = 0 → batch_translate C src_lang tgt_lang bsz S = .error .valueError) ∧
    (bsz < 0 → batch_translate C src_lang tgt_lang bsz S = .ok []) := by
  have hrun : batch_translate_run C src_lang tgt_lang bsz S
      = (if bsz = 0 then (.error .valueError, 0) else (.ok [], 0)) := by
    unfold batch_translate_run pyRange
    by_cases h0 : bsz = 0
    · rw [if_pos h0, if_pos h0]
    · rw [if_neg h0, if_pos (by omega), if_neg h0]
      rfl
  refine ⟨?_, ?_, ?_⟩
  · unfold genCalls
    rw [hrun]
    by_cases h0 : bsz = 0
    · rw [if_pos h0]
    · rw [if_neg h0]
  · intro h0
    unfold batch_translate
    rw [hrun, if_pos h0]
  · intro hlt
    unfold batch_translate
    rw [hrun, if_neg (by omega)]

/-- Witness for the amended claim C7 at batch size 0. -/
theorem claim_C7_witness :
    (0 : Int) ≤ 0 ∧ genCalls idC "eng_Latn" "hin_Deva" 0 ["x"] = 0 ∧
    batch_translate idC "eng_Latn" "hin_Deva" 0 ["x"] = .error .valueError := by
  refine ⟨by decide, ?_, ?_⟩
  · exact (claim_C7 idC "eng_Latn" "hin_Deva" 0 ["x"] (by decide)).1
  · exact (claim_C7 idC "eng_Latn" "hin_Deva" 0 ["x"] (by decide)).2.1 rfl

/-- Claim C8 is right and the code is wrong: `initialize_model_and_tokenizer`
computes the flash-attention fallback into its local `attn_implementation`
variable — which resolves to `flash_attention_2` when the request is
`flash_attention_2` and both capability checks succeed — but then passes
the string literal `"eager"` to `from_pretrained`, ignoring the resolved
value; so the model is loaded with the eager kernel even when flash
attention is requested and available. -/
theorem claim_C8_bug :
    (initialize_model_and_tokenizer "" "flash_attention_2" true true).resolved_attn_implementation
      = "flash_attention_2" ∧
    (initialize_model_and_tokenizer "" "flash_attention_2" true true).attn_implementation
      = "eager" ∧
    (("flash_attention_2" : String) = "eager" → False) :=
  ⟨rfl, rfl, by decide⟩

/-- Claim C9: every segment returned by `split_sentences` for the default
language contains zero soft-hyphen characters, whatever the segmenters
produce and even when the input text contains soft hyphens. -/
theorem claim_C9 {ε : Type} (sent_tokenize : String → List String)
    (mosesSplit sentence_split : String → String → List String)
    (input_text : String) (out : List String)
    (h : split_sentences (ε := ε) sent_tokenize mosesSplit sentence_split input_text
        "eng_Latn" = .ok out) :
    ∀ s ∈ out, s.data.count softHyphen = 0 := by
  unfold split_sentences at h
  rw [if_pos rfl] at h
  have hlk : List.lookup "eng_Latn" flores_codes = some "en" := rfl
  rw [hlk] at h
  injection h with h
  subst h
  intro s hs
  rw [List.mem_map] at hs
  obtain ⟨x, _, rfl⟩ := hs
  rw [List.count_eq_zero]
  intro hmem
  have hmem' : softHyphen ∈ x.data.filter (· != softHyphen) := hmem
  have := (List.mem_filter.mp hmem').2
  simp at this

/-- Witness for claim C9 on a concrete input whose segments contain soft
hyphens before stripping. -/
theorem claim_C9_witness :
    split_sentences (ε := Unit) (fun _ => [softHyphenated]) (fun _ _ => [softHyphenated])
        (fun _ t => [t]) softHyphenated "eng_Latn"
      = .ok [stripSoftHyphens softHyphenated] ∧
    (stripSoftHyphens softHyphenated).data.count softHyphen = 0 :=
  ⟨rfl,
    claim_C9 (ε := Unit) (fun _ => [softHyphenated]) (fun _ _ => [softHyphenated])
      (fun _ t => [t]) softHyphenated [stripSoftHyphens softHyphenated] rfl
      (stripSoftHyphens softHyphenated) (List.mem_singleton.mpr rfl)⟩

/-- Claim C10: on the empty sentence sequence, `batch_translate` returns
the empty sequence and the loop body never runs, so zero preprocessing,
tokenization and model generation invocations occur (the invocation
counter counts loop iterations, each of which performs one of each). -/
theorem claim_C10 {Tok ε : Type} (C : Collaborators Tok ε)
    (src_lang tgt_lang : String) (bsz : Int) (hb : 1 ≤ bsz) :
    batch_translate_run C src_lang tgt_lang bsz [] = (.ok [], 0) := by
  unfold batch_translate_run pyRange
  rw [if_neg (by omega), if_neg (by omega)]
  simp only [List.length_nil, pyRangeList_zero]
  rfl

/-- Witness for claim C10 at the source's default batch size. -/
theorem claim_C10_witness :
    (1 : Int) ≤ BATCH_SIZE ∧
    batch_translate_run idC "hin_Deva" "eng_Latn" BATCH_SIZE [] = (.ok [], 0) :=
  ⟨by decide, claim_C10 idC "hin_Deva" "eng_Latn" BATCH_SIZE (by decide)⟩

end BhasaSetu
